import Mathlib

/-!
Verification of the lifecycle and callback-management layer of
`rclcpp::TimerBase` (src/rclcpp/src/rclcpp/timer.cpp).

The C++ code is a thin, straight-line wrapper around the native `rcl`
timing engine.  We embed it shallowly:

* native engine calls are modelled by their result code (`RclRet`, a
  `Nat` as in `rcl_ret_t`) and, for queries, by the value the engine
  writes through its out parameter; both are parameters of the Lean
  functions, since the engine itself is out of scope;
* each operation is a pure function returning its C++ result
  (`Except TimerError α`, exceptions modelling `throw`) together with a
  trace of the observable steps it performs (`List Event`), so that the
  ordering claims of the specification become statements about traces;
* the mutable fields `on_reset_callback_` (the stored `std::function`)
  and the engine's registered callback pointer are modelled by an
  explicit state record threaded through the callback-protocol
  operations.  Stored user callbacks are identified by a `Nat` token;
  their behaviour when invoked is modelled separately for the adapter.
-/

namespace Rclcpp

/-- `rcl_ret_t` result codes, as in `rcl/types.h`. -/
abbrev RclRet := Nat

/-- `RCL_RET_OK`. -/
def RCL_RET_OK : RclRet := 0

/-- `RCL_RET_TIMER_CANCELED`. -/
def RCL_RET_TIMER_CANCELED : RclRet := 801

/-- Errors thrown by `TimerBase` member functions.
`rclError` models `rclcpp::exceptions::throw_from_rcl_error(ret, msg)`:
it carries the result code, the call-site message from timer.cpp and the
engine's error string (`rcl_get_error_string()`).  `invalidArgument`
models `throw std::invalid_argument(msg)`. -/
inductive TimerError
  | rclError (code : RclRet) (msg : String) (engineMsg : String)
  | invalidArgument (msg : String)
deriving Repr, DecidableEq

/-- Where the engine's registered on-reset callback pointer points:
at the stack-local `new_callback` lambda (`&new_callback`, the
temporary) or at the member `on_reset_callback_` (permanent storage). -/
inductive CbTarget
  | tempAdapter
  | permanentSlot
deriving Repr, DecidableEq

/-- The native engine entry points called by timer.cpp. -/
inductive EngineOp
  | timerInit
  | timerFini
  | timerCancel
  | timerIsCanceled
  | timerReset
  | timerIsReady
  | timerGetTimeUntilNextCall
  | setOnResetCallback (target : Option CbTarget)
deriving Repr, DecidableEq

/-- Observable steps performed by the C++ code, in program order. -/
inductive Event
  | allocNative
  | installDeleter
  | zeroInitNative
  | acquireClockMutex
  | releaseClockMutex
  | acquireCallbackLock
  | releaseCallbackLock
  | engineCall (op : EngineOp) (ret : RclRet)
  | logFiniFailure
  | resetEngineError
  | freeNativeMemory
  | releaseClockRef
  | releaseContextRef
  | assignSlot (old : Option Nat) (new : Option Nat)
  | releaseHandleRef
deriving Repr, DecidableEq

/-- `a` occurs at a strictly earlier position than `b` in the trace. -/
@[reducible]
def Precedes (a b : Event) (tr : List Event) : Prop :=
  ∃ i j : Nat, i < j ∧ tr.get? i = some a ∧ tr.get? j = some b

/-- Number of native engine calls in a trace. -/
def engineCallCount (tr : List Event) : Nat :=
  (tr.filter fun e =>
    match e with
    | .engineCall _ _ => true
    | _ => false).length

/-- The message logged by the `timer_handle_` deleter when
`rcl_timer_fini` fails (timer.cpp lines 50-52). -/
def finiFailureLogMsg (engineErr : String) : String :=
  "Failed to clean up rcl timer handle: " ++ engineErr

/-- The deleter lambda installed on `timer_handle_`
(timer.cpp lines 45-60): under the clock's mutex, finalize the native
record with `rcl_timer_fini`, logging (and resetting the engine error
state) on failure rather than throwing; then `delete` the native
memory; then reset the captured `clock` and `rcl_context` shared
pointers. -/
def timerDeleterTrace (finiRet : RclRet) : List Event :=
  [Event.acquireClockMutex, Event.engineCall .timerFini finiRet]
  ++ (if finiRet = RCL_RET_OK then []
      else [Event.logFiniFailure, Event.resetEngineError])
  ++ [Event.releaseClockMutex, Event.freeNativeMemory,
      Event.releaseClockRef, Event.releaseContextRef]

/-- The callback-related mutable state of one `TimerBase` instance:
`slot` is the member `on_reset_callback_` (the stored `std::function`,
`none` when empty), identified by the token of the user callback it
wraps; `engineTarget` is what the engine's registered callback pointer
currently refers to (`none` when unregistered). -/
structure CbState where
  slot : Option Nat
  engineTarget : Option CbTarget
deriving Repr, DecidableEq

instance {ε α : Type} [DecidableEq ε] [DecidableEq α] :
    DecidableEq (Except ε α) := fun a b =>
  match a, b with
  | .ok a, .ok b =>
    if h : a = b then isTrue (by rw [h]) else isFalse (by simp [h])
  | .ok _, .error _ => isFalse (by simp)
  | .error _, .ok _ => isFalse (by simp)
  | .error a, .error b =>
    if h : a = b then isTrue (by rw [h]) else isFalse (by simp [h])

/-- Result of one member-function call: the state of the timer
afterwards (including the mutations performed before a `throw`), the
trace of observable steps, and the C++ return (`Except.error` models a
propagated exception). -/
structure StepResult where
  state : CbState
  events : List Event
  result : Except TimerError Unit
deriving Repr, DecidableEq

/-- `TimerBase::set_on_reset_callback(rcl_event_callback_t, const void *)`
(timer.cpp lines 211-219): one `rcl_timer_set_on_reset_callback` call,
throwing `throw_from_rcl_error(ret, "Failed to set timer on reset
callback")` on non-success.  Pure result part only; the callers below
inline its engine call into their traces. -/
def set_on_reset_callback_native (ret : RclRet) (engineErr : String) :
    Except TimerError Unit :=
  if ret = RCL_RET_OK then .ok ()
  else .error (.rclError ret "Failed to set timer on reset callback" engineErr)

/-- `TimerBase::set_on_reset_callback(std::function<void(size_t)>)`
(timer.cpp lines 151-198).  `cb` is the argument (`none` models an
empty, non-callable `std::function`); `ret1`/`ret2` are the engine's
result codes for the two `rcl_timer_set_on_reset_callback` calls and
`err1`/`err2` the engine error strings fetched on their failure.
Transcribed in program order: null check (before the lock), adapter
construction, lock, first registration at `&new_callback` (throwing on
failure, before any mutation of `on_reset_callback_`), assignment
`on_reset_callback_ = new_callback` (destroys the old stored callback),
second registration at `&on_reset_callback_` (throwing on failure). -/
def set_on_reset_callback (st : CbState) (cb : Option Nat)
    (ret1 ret2 : RclRet) (err1 err2 : String) : StepResult :=
  match cb with
  | none =>
    { state := st, events := [],
      result := .error (.invalidArgument
        "The callback passed to set_on_reset_callback is not callable.") }
  | some c =>
    if ret1 = RCL_RET_OK then
      if ret2 = RCL_RET_OK then
        { state := { slot := some c, engineTarget := some .permanentSlot },
          events := [.acquireCallbackLock,
                     .engineCall (.setOnResetCallback (some .tempAdapter)) ret1,
                     .assignSlot st.slot (some c),
                     .engineCall (.setOnResetCallback (some .permanentSlot)) ret2,
                     .releaseCallbackLock],
          result := .ok () }
      else
        { state := { slot := some c, engineTarget := some .tempAdapter },
          events := [.acquireCallbackLock,
                     .engineCall (.setOnResetCallback (some .tempAdapter)) ret1,
                     .assignSlot st.slot (some c),
                     .engineCall (.setOnResetCallback (some .permanentSlot)) ret2,
                     .releaseCallbackLock],
          result := .error (.rclError ret2
            "Failed to set timer on reset callback" err2) }
    else
      { state := st,
        events := [.acquireCallbackLock,
                   .engineCall (.setOnResetCallback (some .tempAdapter)) ret1,
                   .releaseCallbackLock],
        result := .error (.rclError ret1
          "Failed to set timer on reset callback" err1) }

/-- `TimerBase::clear_on_reset_callback()` (timer.cpp lines 200-209):
under the lock, if `on_reset_callback_` holds a callback, unregister the
engine's pointer (`set_on_reset_callback(nullptr, nullptr)`, throwing on
non-success before `on_reset_callback_` is touched) and then release the
stored callback; otherwise do nothing. -/
def clear_on_reset_callback (st : CbState) (ret : RclRet) (err : String) :
    StepResult :=
  match st.slot with
  | some old =>
    if ret = RCL_RET_OK then
      { state := { slot := none, engineTarget := none },
        events := [.acquireCallbackLock,
                   .engineCall (.setOnResetCallback none) ret,
                   .assignSlot (some old) none,
                   .releaseCallbackLock],
        result := .ok () }
    else
      { state := st,
        events := [.acquireCallbackLock,
                   .engineCall (.setOnResetCallback none) ret,
                   .releaseCallbackLock],
        result := .error (.rclError ret
          "Failed to set timer on reset callback" err) }
  | none =>
    { state := st,
      events := [.acquireCallbackLock, .releaseCallbackLock],
      result := .ok () }

/-- `TimerBase::~TimerBase()` (timer.cpp lines 76-79) followed by the
implicit member destruction: `clear_on_reset_callback()` runs first,
then the member `timer_handle_` shared pointer releases its reference;
when that was the last reference (`lastRef`) the deleter of
`timerDeleterTrace` runs. -/
def timerDestructorTrace (st : CbState) (clearRet : RclRet)
    (clearErr : String) (lastRef : Bool) (finiRet : RclRet) : List Event :=
  (clear_on_reset_callback st clearRet clearErr).events
  ++ [Event.releaseHandleRef]
  ++ (if lastRef then timerDeleterTrace finiRet else [])

/-- `TimerBase::TimerBase` (timer.cpp lines 32-74): allocate the native
record with the finalizing deleter installed on the owning shared
pointer, zero-initialize it, then under the clock's mutex call
`rcl_timer_init`; on non-success throw
`throw_from_rcl_error(initRet, "Couldn\x27t initialize rcl timer handle")`,
whereupon the already-constructed member `timer_handle_` is destroyed
and, holding the only reference, runs the deleter. -/
def TimerBase.construct (initRet : RclRet) (initErr : String)
    (finiRet : RclRet) : Except TimerError Unit × List Event :=
  let ev := [Event.allocNative, Event.installDeleter, Event.zeroInitNative,
             Event.acquireClockMutex, Event.engineCall .timerInit initRet,
             Event.releaseClockMutex]
  if initRet = RCL_RET_OK then
    (.ok (), ev)
  else
    (.error (.rclError initRet "Couldn\x27t initialize rcl timer handle" initErr),
     ev ++ timerDeleterTrace finiRet)

/-- `TimerBase::cancel()` (timer.cpp lines 81-88). -/
def TimerBase.cancel (ret : RclRet) (err : String) :
    Except TimerError Unit × List Event :=
  (if ret = RCL_RET_OK then .ok ()
   else .error (.rclError ret "Couldn\x27t cancel timer" err),
   [.engineCall .timerCancel ret])

/-- `TimerBase::is_canceled()` (timer.cpp lines 90-99); `engineVal` is
the value the engine wrote through the out parameter on success. -/
def TimerBase.is_canceled (ret : RclRet) (err : String) (engineVal : Bool) :
    Except TimerError Bool × List Event :=
  (if ret = RCL_RET_OK then .ok engineVal
   else .error (.rclError ret "Couldn\x27t get timer cancelled state" err),
   [.engineCall .timerIsCanceled ret])

/-- `TimerBase::reset()` (timer.cpp lines 101-112): the engine call is
made while holding `callback_mutex_`; the error check and throw happen
after the lock is released. -/
def TimerBase.reset (ret : RclRet) (err : String) :
    Except TimerError Unit × List Event :=
  (if ret = RCL_RET_OK then .ok ()
   else .error (.rclError ret "Couldn\x27t reset timer" err),
   [.acquireCallbackLock, .engineCall .timerReset ret, .releaseCallbackLock])

/-- `TimerBase::is_ready()` (timer.cpp lines 114-123). -/
def TimerBase.is_ready (ret : RclRet) (err : String) (engineVal : Bool) :
    Except TimerError Bool × List Event :=
  (if ret = RCL_RET_OK then .ok engineVal
   else .error (.rclError ret "Failed to check timer" err),
   [.engineCall .timerIsReady ret])

/-- `std::chrono::nanoseconds::max().count()`: the representation is a
signed 64-bit count. -/
def nanoseconds_max : Int := 2 ^ 63 - 1

/-- `TimerBase::time_until_trigger()` (timer.cpp lines 125-137):
`RCL_RET_TIMER_CANCELED` yields `std::chrono::nanoseconds::max()`; any
other non-OK code throws; otherwise the engine-reported count is
returned as nanoseconds. -/
def TimerBase.time_until_trigger (ret : RclRet) (err : String)
    (time_until_next_call : Int) : Except TimerError Int × List Event :=
  (if ret = RCL_RET_TIMER_CANCELED then .ok nanoseconds_max
   else if ret ≠ RCL_RET_OK then
     .error (.rclError ret "Timer could not get time until next call" err)
   else .ok time_until_next_call,
   [.engineCall .timerGetTimeUntilNextCall ret])

/-- Outcome of invoking the user-provided on-reset callback: it returns
normally, or raises a `std::exception` (with demangled type name and
`what()` text), or raises something else. -/
inductive CbOutcome
  | returned
  | stdException (typeName : String) (what : String)
  | unknownException
deriving Repr, DecidableEq

/-- The message logged by the adapter when the user callback raises a
`std::exception` (timer.cpp lines 165-170); `timerId` renders `this`. -/
def adapterStdExnLogMsg (timerId : Nat) (typeName what : String) : String :=
  "rclcpp::TimerBase@" ++ toString timerId ++ " caught " ++ typeName ++
  " exception in user-provided callback for the \x27on reset\x27 callback: "
  ++ what

/-- The message logged by the adapter when the user callback raises a
non-`std::exception` (timer.cpp lines 172-176). -/
def adapterUnknownExnLogMsg (timerId : Nat) : String :=
  "rclcpp::TimerBase@" ++ toString timerId ++
  " caught unhandled exception in user-provided callback for the " ++
  "\x27on reset\x27 callback"

/-- The `new_callback` adapter lambda (timer.cpp lines 160-178): invoke
the user callback inside `try`; the two `catch` handlers log and return
normally.  `userCb` gives the user callback's behaviour per
`reset_calls`; the result is the propagated exception (`Except.error`,
never produced) or the list of error-log messages emitted. -/
def on_reset_adapter (timerId : Nat) (userCb : Nat → CbOutcome)
    (reset_calls : Nat) : Except CbOutcome (List String) :=
  match userCb reset_calls with
  | .returned => .ok []
  | .stdException typeName what =>
    .ok [adapterStdExnLogMsg timerId typeName what]
  | .unknownException => .ok [adapterUnknownExnLogMsg timerId]

/-- Claim C1: in every run of the timer-handle deleter, the native
finalize call happens under the clock mutex, any finalization failure is
logged (the deleter completes with the same trailing steps instead of
propagating), the native memory is released after finalization, and the
captured clock and context references are released only after the
finalize call has run — each of those releases occurs exactly once, and
the only engine call of the deleter (the finalize call) precedes both of
them. -/
theorem timer_finalizer_order (finiRet : RclRet) :
    Precedes .acquireClockMutex (.engineCall .timerFini finiRet)
      (timerDeleterTrace finiRet)
    ∧ Precedes (.engineCall .timerFini finiRet) .releaseClockMutex
      (timerDeleterTrace finiRet)
    ∧ Precedes (.engineCall .timerFini finiRet) .freeNativeMemory
      (timerDeleterTrace finiRet)
    ∧ Precedes .freeNativeMemory .releaseClockRef (timerDeleterTrace finiRet)
    ∧ Precedes .releaseClockRef .releaseContextRef (timerDeleterTrace finiRet)
    ∧ (finiRet ≠ RCL_RET_OK →
        Precedes .logFiniFailure .freeNativeMemory (timerDeleterTrace finiRet)
        ∧ Precedes .logFiniFailure .releaseClockRef (timerDeleterTrace finiRet))
    ∧ engineCallCount (timerDeleterTrace finiRet) = 1
    ∧ (timerDeleterTrace finiRet).count .releaseClockRef = 1
    ∧ (timerDeleterTrace finiRet).count .releaseContextRef = 1 := by
  by_cases h : finiRet = RCL_RET_OK
  · subst h
    exact ⟨⟨0, 1, by omega, rfl, rfl⟩, ⟨1, 2, by omega, rfl, rfl⟩,
      ⟨1, 3, by omega, rfl, rfl⟩, ⟨3, 4, by omega, rfl, rfl⟩,
      ⟨4, 5, by omega, rfl, rfl⟩, fun hc => absurd rfl hc, rfl, rfl, rfl⟩
  · simp only [timerDeleterTrace, if_neg h]
    exact ⟨⟨0, 1, by omega, rfl, rfl⟩, ⟨1, 4, by omega, rfl, rfl⟩,
      ⟨1, 5, by omega, rfl, rfl⟩, ⟨5, 6, by omega, rfl, rfl⟩,
      ⟨6, 7, by omega, rfl, rfl⟩,
      fun _ => ⟨⟨2, 5, by omega, rfl, rfl⟩, ⟨2, 6, by omega, rfl, rfl⟩⟩,
      rfl, rfl, rfl⟩

/-- Witness for `timer_finalizer_order` at the failing finalize code 1. -/
theorem timer_finalizer_order_witness :
    Precedes .logFiniFailure .freeNativeMemory (timerDeleterTrace 1)
    ∧ engineCallCount (timerDeleterTrace 1) = 1 :=
  ⟨((timer_finalizer_order 1).2.2.2.2.2.1 (by decide)).1,
   (timer_finalizer_order 1).2.2.2.2.2.2.1⟩

/-- Claim C2: with a callable argument and a succeeding engine,
`set_on_reset_callback` installs in this order, all between acquiring
and releasing the callback lock: first the engine registration aimed at
the stack-temporary adapter, then the assignment into the permanent
slot (which overwrites — and destroys — whatever the slot held before),
then the engine registration aimed at the permanent slot; the call
succeeds and leaves the slot holding the new callback with the engine
pointed at the permanent storage. -/
theorem set_on_reset_two_phase (st : CbState) (c : Nat) (e1 e2 : String) :
    (set_on_reset_callback st (some c) RCL_RET_OK RCL_RET_OK e1 e2).result
      = .ok ()
    ∧ (set_on_reset_callback st (some c) RCL_RET_OK RCL_RET_OK e1 e2).state
      = { slot := some c, engineTarget := some .permanentSlot }
    ∧ Precedes .acquireCallbackLock
      (.engineCall (.setOnResetCallback (some .tempAdapter)) RCL_RET_OK)
      (set_on_reset_callback st (some c) RCL_RET_OK RCL_RET_OK e1 e2).events
    ∧ Precedes (.engineCall (.setOnResetCallback (some .tempAdapter)) RCL_RET_OK)
      (.assignSlot st.slot (some c))
      (set_on_reset_callback st (some c) RCL_RET_OK RCL_RET_OK e1 e2).events
    ∧ Precedes (.assignSlot st.slot (some c))
      (.engineCall (.setOnResetCallback (some .permanentSlot)) RCL_RET_OK)
      (set_on_reset_callback st (some c) RCL_RET_OK RCL_RET_OK e1 e2).events
    ∧ Precedes (.engineCall (.setOnResetCallback (some .permanentSlot)) RCL_RET_OK)
      .releaseCallbackLock
      (set_on_reset_callback st (some c) RCL_RET_OK RCL_RET_OK e1 e2).events :=
  ⟨rfl, rfl, ⟨0, 1, by omega, rfl, rfl⟩, ⟨1, 2, by omega, rfl, rfl⟩,
   ⟨2, 3, by omega, rfl, rfl⟩, ⟨3, 4, by omega, rfl, rfl⟩⟩

/-- Claim C8: `set_on_reset_callback` with an empty (non-callable)
`std::function` throws `std::invalid_argument` and performs nothing: no
events at all (in particular no engine call), and the stored slot and
the engine's registered pointer are exactly as before. -/
theorem set_on_reset_rejects_null (st : CbState) (ret1 ret2 : RclRet)
    (e1 e2 : String) :
    (set_on_reset_callback st none ret1 ret2 e1 e2).result
      = .error (.invalidArgument
          "The callback passed to set_on_reset_callback is not callable.")
    ∧ (set_on_reset_callback st none ret1 ret2 e1 e2).state = st
    ∧ (set_on_reset_callback st none ret1 ret2 e1 e2).events = []
    ∧ engineCallCount (set_on_reset_callback st none ret1 ret2 e1 e2).events
      = 0 :=
  ⟨rfl, rfl, rfl, rfl⟩

/-- Claim C10: when the first (temporary-target) engine registration
inside `set_on_reset_callback` fails, the call propagates the typed
error and the whole callback state — in particular the stored slot — is
exactly what it was before the call; no slot assignment event occurs. -/
theorem set_on_reset_first_reg_failure_preserves_slot (st : CbState) (c : Nat)
    (ret1 ret2 : RclRet) (e1 e2 : String) (h : ret1 ≠ RCL_RET_OK) :
    (set_on_reset_callback st (some c) ret1 ret2 e1 e2).result
      = .error (.rclError ret1 "Failed to set timer on reset callback" e1)
    ∧ (set_on_reset_callback st (some c) ret1 ret2 e1 e2).state = st
    ∧ (set_on_reset_callback st (some c) ret1 ret2 e1 e2).state.slot = st.slot
    ∧ ∀ o n, Event.assignSlot o n
        ∉ (set_on_reset_callback st (some c) ret1 ret2 e1 e2).events := by
  refine ⟨?_, ?_, ?_, fun o n hmem => ?_⟩
  · simp [set_on_reset_callback, if_neg h]
  · simp [set_on_reset_callback, if_neg h]
  · simp [set_on_reset_callback, if_neg h]
  · simp [set_on_reset_callback, if_neg h] at hmem

/-- Witness for `set_on_reset_first_reg_failure_preserves_slot`: a
failed first registration (code 1) leaves the previously stored
callback 5 in the slot. -/
theorem set_on_reset_first_reg_failure_witness :
    (set_on_reset_callback ⟨some 5, some .permanentSlot⟩ (some 7) 1 0
      "e1" "e2").state.slot = some 5 :=
  (set_on_reset_first_reg_failure_preserves_slot
    ⟨some 5, some .permanentSlot⟩ 7 1 0 "e1" "e2" (by decide)).2.2.1

/-- Claim C9: `clear_on_reset_callback` is idempotent.  When a callback
is installed and the engine accepts the unregistration, it makes the
engine call with the empty handler and releases the stored callback;
when nothing is installed it makes no engine call, changes no state and
succeeds; and under an accepting engine, running it twice in a row
yields the same state as running it once, the second run making no
engine call. -/
theorem clear_on_reset_idempotent (st : CbState) (old : Nat)
    (ret ret2 : RclRet) (err err2 : String) :
    (st.slot = some old → ret = RCL_RET_OK →
      Event.engineCall (.setOnResetCallback none) ret
        ∈ (clear_on_reset_callback st ret err).events
      ∧ Event.assignSlot (some old) none
        ∈ (clear_on_reset_callback st ret err).events
      ∧ (clear_on_reset_callback st ret err).state
        = { slot := none, engineTarget := none }
      ∧ (clear_on_reset_callback st ret err).result = .ok ())
    ∧ (st.slot = none →
      (clear_on_reset_callback st ret err).state = st
      ∧ engineCallCount (clear_on_reset_callback st ret err).events = 0
      ∧ (clear_on_reset_callback st ret err).result = .ok ())
    ∧ (ret = RCL_RET_OK →
      (clear_on_reset_callback
          (clear_on_reset_callback st ret err).state ret2 err2).state
        = (clear_on_reset_callback st ret err).state
      ∧ engineCallCount (clear_on_reset_callback
          (clear_on_reset_callback st ret err).state ret2 err2).events
        = 0) := by
  obtain ⟨slot, tgt⟩ := st
  cases slot with
  | none =>
    refine ⟨fun h => ?_, fun _ => ⟨rfl, rfl, rfl⟩, fun _ => ⟨rfl, rfl⟩⟩
    exact Option.noConfusion h
  | some s =>
    refine ⟨fun h hr => ?_, fun h => ?_, fun hr => ?_⟩
    · obtain rfl : s = old := Option.some.inj h
      subst hr
      refine ⟨?_, ?_, rfl, rfl⟩
      · simp [clear_on_reset_callback]
      · simp [clear_on_reset_callback]
    · exact Option.noConfusion h
    · subst hr
      exact ⟨rfl, rfl⟩

/-- Witness for `clear_on_reset_idempotent`: clearing the installed
callback 3 empties the state, and an immediate second clear makes no
engine call. -/
theorem clear_on_reset_idempotent_witness :
    (clear_on_reset_callback ⟨some 3, some .permanentSlot⟩ RCL_RET_OK
        "e").state = { slot := none, engineTarget := none }
    ∧ engineCallCount (clear_on_reset_callback
        (clear_on_reset_callback ⟨some 3, some .permanentSlot⟩ RCL_RET_OK
          "e").state RCL_RET_OK "e2").events = 0 :=
  ⟨((clear_on_reset_idempotent ⟨some 3, some .permanentSlot⟩ 3 RCL_RET_OK
      RCL_RET_OK "e" "e2").1 rfl rfl).2.2.1,
   ((clear_on_reset_idempotent ⟨some 3, some .permanentSlot⟩ 3 RCL_RET_OK
      RCL_RET_OK "e" "e2").2.2 rfl).2⟩

/-- Claim C7: in the destructor of a timer with an installed callback
(engine accepting the unregistration), the engine call that clears the
callback pointer and the release of the stored callback both precede
the release of the native-handle reference, and precede the native
finalize call of the deleter when this was the last reference; after
the clearing step the engine holds no callback pointer. -/
theorem destructor_clears_callback_before_release (st : CbState) (old : Nat)
    (clearRet : RclRet) (clearErr : String) (finiRet : RclRet)
    (hslot : st.slot = some old) (hok : clearRet = RCL_RET_OK) :
    Precedes (.engineCall (.setOnResetCallback none) clearRet)
      .releaseHandleRef (timerDestructorTrace st clearRet clearErr true finiRet)
    ∧ Precedes (.assignSlot (some old) none)
      .releaseHandleRef (timerDestructorTrace st clearRet clearErr true finiRet)
    ∧ Precedes (.engineCall (.setOnResetCallback none) clearRet)
      (.engineCall .timerFini finiRet)
      (timerDestructorTrace st clearRet clearErr true finiRet)
    ∧ (clear_on_reset_callback st clearRet clearErr).state
      = { slot := none, engineTarget := none } := by
  obtain ⟨slot, tgt⟩ := st
  cases hslot
  subst hok
  exact ⟨⟨1, 4, by omega, rfl, rfl⟩, ⟨2, 4, by omega, rfl, rfl⟩,
    ⟨1, 6, by omega, rfl, rfl⟩, rfl⟩

/-- Witness for `destructor_clears_callback_before_release` with
callback 2 installed and a successful finalize. -/
theorem destructor_clears_callback_witness :
    Precedes (.engineCall (.setOnResetCallback none) RCL_RET_OK)
      (.engineCall .timerFini RCL_RET_OK)
      (timerDestructorTrace ⟨some 2, some .permanentSlot⟩ RCL_RET_OK "e"
        true RCL_RET_OK) :=
  (destructor_clears_callback_before_release ⟨some 2, some .permanentSlot⟩
    2 RCL_RET_OK "e" RCL_RET_OK rfl rfl).2.2.1

/-- Counterexample to claim C3 as stated: when `rcl_timer_init` fails
(code 1), construction does fail with the typed initialization error,
but the finalizer has already been installed on the owning shared
pointer and the engine finalization step does run for the failed
record (during destruction of the already-constructed member
`timer_handle_` while the constructor's exception unwinds). -/
theorem construct_failure_finalizer_runs :
    (TimerBase.construct 1 "bad alloc" RCL_RET_OK).1
      = .error (.rclError 1 "Couldn\x27t initialize rcl timer handle"
          "bad alloc")
    ∧ Event.installDeleter ∈ (TimerBase.construct 1 "bad alloc" RCL_RET_OK).2
    ∧ Event.engineCall .timerFini RCL_RET_OK
      ∈ (TimerBase.construct 1 "bad alloc" RCL_RET_OK).2 := by
  refine ⟨rfl, ?_, ?_⟩ <;> decide

/-- Claim C3 (amended): when engine initialization fails, construction
fails with the typed initialization error carrying the engine's native
error string and no usable handle is returned; the finalizer, installed
at allocation time before the initialization attempt, therefore still
runs during unwinding: the engine finalization step executes for the
failed record, the native memory is freed afterwards, and a
finalization failure there is logged, not propagated. -/
theorem construct_failure_behavior (initRet : RclRet) (initErr : String)
    (finiRet : RclRet) (h : initRet ≠ RCL_RET_OK) :
    (TimerBase.construct initRet initErr finiRet).1
      = .error (.rclError initRet "Couldn\x27t initialize rcl timer handle"
          initErr)
    ∧ Precedes .installDeleter (.engineCall .timerInit initRet)
      (TimerBase.construct initRet initErr finiRet).2
    ∧ Precedes (.engineCall .timerInit initRet)
      (.engineCall .timerFini finiRet)
      (TimerBase.construct initRet initErr finiRet).2
    ∧ Precedes (.engineCall .timerFini finiRet) .freeNativeMemory
      (TimerBase.construct initRet initErr finiRet).2
    ∧ (finiRet ≠ RCL_RET_OK →
        Event.logFiniFailure ∈ (TimerBase.construct initRet initErr finiRet).2) := by
  simp only [TimerBase.construct]
  rw [if_neg h]
  by_cases hf : finiRet = RCL_RET_OK
  · subst hf
    exact ⟨rfl, ⟨1, 4, by omega, rfl, rfl⟩, ⟨4, 7, by omega, rfl, rfl⟩,
      ⟨7, 9, by omega, rfl, rfl⟩, fun hc => absurd rfl hc⟩
  · simp only [timerDeleterTrace]
    rw [if_neg hf]
    refine ⟨trivial, ⟨1, 4, by omega, rfl, rfl⟩, ⟨4, 7, by omega, rfl, rfl⟩,
      ⟨7, 11, by omega, rfl, rfl⟩, fun _ => ?_⟩
    simp

/-- Witness for `construct_failure_behavior`: initialization failure 1
with finalize failure 2 yields the typed error and the logged
finalization failure. -/
theorem construct_failure_behavior_witness :
    (TimerBase.construct 1 "oom" 2).1
      = .error (.rclError 1 "Couldn\x27t initialize rcl timer handle" "oom")
    ∧ Event.logFiniFailure ∈ (TimerBase.construct 1 "oom" 2).2 :=
  ⟨(construct_failure_behavior 1 "oom" 2 (by decide)).1,
   (construct_failure_behavior 1 "oom" 2 (by decide)).2.2.2.2 (by decide)⟩

/-- Claim C4: `time_until_trigger` returns the maximum representable
nanosecond duration — as a non-error result — exactly when the engine
reports `RCL_RET_TIMER_CANCELED`; any other non-success code yields the
typed error for the time-until-trigger operation, and success yields
the engine-reported nanosecond count.  For the four other operations
the canceled code is an ordinary failure. -/
theorem time_until_trigger_canceled_policy (ret : RclRet) (err : String)
    (t : Int) (b : Bool) :
    (TimerBase.time_until_trigger RCL_RET_TIMER_CANCELED err t).1
      = .ok nanoseconds_max
    ∧ (TimerBase.time_until_trigger RCL_RET_OK err t).1 = .ok t
    ∧ (ret ≠ RCL_RET_TIMER_CANCELED → ret ≠ RCL_RET_OK →
        (TimerBase.time_until_trigger ret err t).1
          = .error (.rclError ret
              "Timer could not get time until next call" err))
    ∧ (TimerBase.cancel RCL_RET_TIMER_CANCELED err).1
      = .error (.rclError RCL_RET_TIMER_CANCELED "Couldn\x27t cancel timer"
          err)
    ∧ (TimerBase.is_canceled RCL_RET_TIMER_CANCELED err b).1
      = .error (.rclError RCL_RET_TIMER_CANCELED
          "Couldn\x27t get timer cancelled state" err)
    ∧ (TimerBase.reset RCL_RET_TIMER_CANCELED err).1
      = .error (.rclError RCL_RET_TIMER_CANCELED "Couldn\x27t reset timer"
          err)
    ∧ (TimerBase.is_ready RCL_RET_TIMER_CANCELED err b).1
      = .error (.rclError RCL_RET_TIMER_CANCELED "Failed to check timer"
          err) := by
  refine ⟨rfl, rfl, fun h1 h2 => ?_, rfl, rfl, rfl, rfl⟩
  simp only [TimerBase.time_until_trigger]
  rw [if_neg h1, if_pos h2]

/-- Witness for `time_until_trigger_canceled_policy`: code 11 (neither
success nor canceled) yields the typed error. -/
theorem time_until_trigger_canceled_policy_witness :
    (TimerBase.time_until_trigger 11 "e" 5).1
      = .error (.rclError 11 "Timer could not get time until next call"
          "e") :=
  (time_until_trigger_canceled_policy 11 "e" 5 true).2.2.1
    (by decide) (by decide)

/-- Claim C6: each of `cancel`, `is_canceled`, `reset` and `is_ready`
performs exactly one engine call, returns the engine-reported value
(or unit) when the engine reports success, and on any non-success code
fails with the typed error carrying that operation's own message. -/
theorem state_ops_single_call (ret : RclRet) (err : String) (b : Bool) :
    engineCallCount (TimerBase.cancel ret err).2 = 1
    ∧ engineCallCount (TimerBase.is_canceled ret err b).2 = 1
    ∧ engineCallCount (TimerBase.reset ret err).2 = 1
    ∧ engineCallCount (TimerBase.is_ready ret err b).2 = 1
    ∧ (ret = RCL_RET_OK →
        (TimerBase.cancel ret err).1 = .ok ()
        ∧ (TimerBase.is_canceled ret err b).1 = .ok b
        ∧ (TimerBase.reset ret err).1 = .ok ()
        ∧ (TimerBase.is_ready ret err b).1 = .ok b)
    ∧ (ret ≠ RCL_RET_OK →
        (TimerBase.cancel ret err).1
          = .error (.rclError ret "Couldn\x27t cancel timer" err)
        ∧ (TimerBase.is_canceled ret err b).1
          = .error (.rclError ret "Couldn\x27t get timer cancelled state" err)
        ∧ (TimerBase.reset ret err).1
          = .error (.rclError ret "Couldn\x27t reset timer" err)
        ∧ (TimerBase.is_ready ret err b).1
          = .error (.rclError ret "Failed to check timer" err)) := by
  refine ⟨rfl, rfl, rfl, rfl, fun h => ?_, fun h => ?_⟩
  · subst h
    exact ⟨rfl, rfl, rfl, rfl⟩
  · refine ⟨?_, ?_, ?_, ?_⟩ <;>
      simp only [TimerBase.cancel, TimerBase.is_canceled, TimerBase.reset,
        TimerBase.is_ready] <;>
      rw [if_neg h]

/-- Witness for `state_ops_single_call`: success for `cancel` at
`RCL_RET_OK`, typed failure for `reset` at code 1. -/
theorem state_ops_single_call_witness :
    (TimerBase.cancel RCL_RET_OK "e").1 = .ok ()
    ∧ (TimerBase.reset 1 "e").1
      = .error (.rclError 1 "Couldn\x27t reset timer" "e") :=
  ⟨((state_ops_single_call RCL_RET_OK "e" true).2.2.2.2.1 rfl).1,
   ((state_ops_single_call 1 "e" true).2.2.2.2.2 (by decide)).2.2.1⟩

/-- Claim C5: the on-reset adapter never propagates a user-callback
exception: whatever the user callback does, the adapter returns
normally; a raised `std::exception` is logged with the timer's identity
and the exception's demangled type and description, any other raise is
logged with the timer's identity, and a normal return logs nothing.
Independently, `reset` reports success whenever the engine call itself
succeeded. -/
theorem adapter_contains_user_exceptions (timerId : Nat)
    (userCb : Nat → CbOutcome) (reset_calls : Nat) (typeName what : String)
    (engineRet : RclRet) (err : String) :
    (∃ logs, on_reset_adapter timerId userCb reset_calls = .ok logs)
    ∧ (userCb reset_calls = .stdException typeName what →
        on_reset_adapter timerId userCb reset_calls
          = .ok [adapterStdExnLogMsg timerId typeName what])
    ∧ (userCb reset_calls = .unknownException →
        on_reset_adapter timerId userCb reset_calls
          = .ok [adapterUnknownExnLogMsg timerId])
    ∧ (userCb reset_calls = .returned →
        on_reset_adapter timerId userCb reset_calls = .ok [])
    ∧ (engineRet = RCL_RET_OK → (TimerBase.reset engineRet err).1 = .ok ()) := by
  refine ⟨?_, fun h => ?_, fun h => ?_, fun h => ?_, fun h => ?_⟩
  · cases hcb : userCb reset_calls with
    | returned => exact ⟨[], by simp only [on_reset_adapter, hcb]⟩
    | stdException ty wh =>
      exact ⟨[adapterStdExnLogMsg timerId ty wh],
        by simp only [on_reset_adapter, hcb]⟩
    | unknownException =>
      exact ⟨[adapterUnknownExnLogMsg timerId],
        by simp only [on_reset_adapter, hcb]⟩
  · simp only [on_reset_adapter, h]
  · simp only [on_reset_adapter, h]
  · simp only [on_reset_adapter, h]
  · subst h
    rfl

/-- Witness for `adapter_contains_user_exceptions`: a user callback
throwing `std::runtime_error` is contained and logged, and `reset`
still succeeds on an accepting engine. -/
theorem adapter_contains_user_exceptions_witness :
    on_reset_adapter 42 (fun _ => .stdException "std::runtime_error" "boom") 0
      = .ok [adapterStdExnLogMsg 42 "std::runtime_error" "boom"]
    ∧ (TimerBase.reset RCL_RET_OK "e").1 = .ok () :=
  ⟨(adapter_contains_user_exceptions 42
      (fun _ => .stdException "std::runtime_error" "boom") 0
      "std::runtime_error" "boom" RCL_RET_OK "e").2.1 rfl,
   (adapter_contains_user_exceptions 42
      (fun _ => .stdException "std::runtime_error" "boom") 0
      "std::runtime_error" "boom" RCL_RET_OK "e").2.2.2.2 rfl⟩

end Rclcpp
